import Mathlib

/-!
Verification of the Xata vector-store handler
(mindsdb/integrations/handlers/xata_handler/xata_handler.py).

The handler is shallowly embedded: the backend client library is an opaque
collaborator, modelled as a record of oracle functions that may either
return a value or raise, and every handler method is a pure function of the
oracle, the adapter state and its inputs.  Raised Python exceptions are
modelled with the Except monad; each method additionally returns the ordered
trace of backend calls it issued, so that claims about which backend calls
happen (and how many) are statable.
-/

namespace Xata

/-- Python scalar values as they flow through the handler.  The handler never
computes with cell contents (documents, metadata objects, distances,
embedding vectors): it only moves them around, so backend-supplied scalars
that are not strings or integers are represented by the opaque constructor
vobj, tagged with a number so that distinct values stay distinct. -/
inductive PyVal where
  | vnone : PyVal
  | vstr (s : String) : PyVal
  | vint (n : Int) : PyVal
  | vobj (tag : Nat) : PyVal
deriving DecidableEq, Repr

/-- Python exceptions that the embedded code can raise. -/
inductive PyErr where
  | attributeError (msg : String) : PyErr
  | typeError (msg : String) : PyErr
  | keyError (k : String) : PyErr
  | indexError (msg : String) : PyErr
  | exception (msg : String) : PyErr
deriving DecidableEq, Repr

/-- The message carried by an exception (what str(e) yields in the source). -/
def PyErr.msg : PyErr → String
  | .attributeError m => m
  | .typeError m => m
  | .keyError k => k
  | .indexError m => m
  | .exception m => m

/-- A record/row: a Python dict from column name to scalar, as produced by
DataFrame.to_dict with the records orientation. -/
abbrev Row := List (String × PyVal)

/-- The payload dict built by select: column name to column of values.
Modelled as an insertion-ordered association list, matching Python dicts. -/
abbrev Dict := List (String × List PyVal)

/-- Lookup in an insertion-ordered dict (first binding wins; the dict
operations below never create duplicate keys). -/
def dlookup (d : Dict) (k : String) : Option (List PyVal) :=
  match d with
  | [] => none
  | (k2, v) :: rest => if k2 = k then some v else dlookup rest k

/-- Python dict assignment d[k] = v: overwrite in place if the key exists,
otherwise append at the end. -/
def dictInsert (d : Dict) (k : String) (v : List PyVal) : Dict :=
  match d with
  | [] => [(k, v)]
  | (k2, v2) :: rest =>
    if k2 = k then (k, v) :: rest else (k2, v2) :: dictInsert rest k v

/-- The key sequence of a dict, in insertion order. -/
def dkeys (d : Dict) : List String := d.map (fun kv => kv.1)

/-- Lookup in a row (a Python dict of scalars). -/
def rowLookup (r : Row) (k : String) : Option PyVal :=
  match r with
  | [] => none
  | (k2, v) :: rest => if k2 = k then some v else rowLookup rest k

/-- Python membership test: k in row. -/
def rowHas (r : Row) (k : String) : Bool := (rowLookup r k).isSome

/-- Python del row[k]: remove the binding for k. -/
def rowDel (r : Row) (k : String) : Row :=
  match r with
  | [] => []
  | (k2, v) :: rest => if k2 = k then rest else (k2, v) :: rowDel rest k

/-- Python idiom: a list "or None" — an empty list collapses to None. -/
def orNone (l : List PyVal) : Option (List PyVal) :=
  if l.isEmpty then none else some l

/- Modelled from the spec: the reserved column names of the generic
vector-store contract (TableField in
mindsdb.integrations.libs.vectordatabase_handler, which is not under src/).
Section 3 of the spec names the reserved columns id, content, metadata,
embeddings/search_vector and the result-only column distance. -/
namespace TableField

def ID : String := "id"

def CONTENT : String := "content"

def METADATA : String := "metadata"

def EMBEDDINGS : String := "embeddings"

def SEARCH_VECTOR : String := "search_vector"

def DISTANCE : String := "distance"

end TableField

/-- Modelled from the spec: the comparison operators of a FilterCondition
(FilterOperator in mindsdb.integrations.libs.vectordatabase_handler, not
under src/).  Section 3 of the spec lists EQUAL, NOT_EQUAL, LESS_THAN,
GREATER_THAN, IN among others. -/
inductive FilterOperator where
  | equal | not_equal | less_than | greater_than | in_list
deriving DecidableEq, Repr

/-- Modelled from the spec: a single caller-supplied filter predicate
(FilterCondition in mindsdb.integrations.libs.vectordatabase_handler, not
under src/): column name, operator, scalar or list value. -/
structure FilterCondition where
  column : String
  op : FilterOperator
  value : PyVal
deriving DecidableEq, Repr

/-- One translated condition of the backend-native filter expression. -/
structure NativeCond where
  column : String
  op : FilterOperator
  value : PyVal
deriving DecidableEq, Repr

/-- The backend-native filter expression: a conjunction of translated
conditions. -/
inductive NativeFilter where
  | conj (cs : List NativeCond) : NativeFilter
deriving DecidableEq, Repr

/-- Modelled from the spec: the method _translate_metadata_condition used by
select and delete; it lives in the shared vector-store base layer, which is
not under src/.  Spec section 4.3: the translator maps an optional ordered
condition list to a backend-native filter expression, mapping each condition
operator-for-operator, excluding conditions that target the reserved
search-vector column and the reserved id column (those are consumed
separately), and yielding an absent expression when the list is empty or
absent (section 8: translating an empty list yields an absent/empty
expression). -/
def translate_metadata_condition (conditions : Option (List FilterCondition)) :
    Option NativeFilter :=
  match conditions with
  | none => none
  | some cs =>
    let ms := cs.filter (fun c =>
      c.column != TableField.SEARCH_VECTOR && c.column != TableField.ID)
    if ms.isEmpty then none
    else some (NativeFilter.conj (ms.map (fun c => ⟨c.column, c.op, c.value⟩)))

/-- A backend API response object, as tested by resp.is_success in the
source; message is what indexing the response with the message key yields. -/
structure ApiResp where
  is_success : Bool
  message : String
deriving DecidableEq, Repr

/-- Payload of a similarity query (select, lines 251 to 259 of the source):
the translated filter, the query embedding, the requested fields and, when a
limit was given, the result count. -/
structure QueryPayload where
  filters : Option NativeFilter
  query_embeddings : Option PyVal
  fields : List String
  n_results : Option Int
deriving DecidableEq, Repr

/-- Arguments of a plain retrieval (select, lines 268 to 273 of the
source). -/
structure GetArgs where
  ids : Option (List PyVal)
  filters : Option NativeFilter
  limit : Option Int
  offset : Option Int
deriving DecidableEq, Repr

/-- Arguments of a backend delete call (delete, line 322 of the source). -/
structure DeleteArgs where
  ids : Option (List PyVal)
  filters : Option NativeFilter
deriving DecidableEq, Repr

/-- Similarity-query result: for each field, a list of result batches — the
source unwraps the first batch with an index of zero. -/
structure QueryResult where
  ids : List (List PyVal)
  documents : List (List PyVal)
  metadatas : List (List PyVal)
  distances : List (List PyVal)
deriving DecidableEq, Repr

/-- Plain-retrieval result: a flat list for each field. -/
structure GetResult where
  ids : List PyVal
  documents : List PyVal
  metadatas : List PyVal
deriving DecidableEq, Repr

/-- The schema column types used by create_table (lines 91 to 99). -/
inductive ColumnType where
  | vector | text | json
deriving DecidableEq, Repr

/-- One column of the schema payload that create_table sends. -/
structure SchemaColumn where
  name : String
  ctype : ColumnType
  vector_dimension : Option PyVal
deriving DecidableEq, Repr

/-- The collection object obtained from the backend client in select and
delete, modelled as an oracle for the three collection-level calls the
source makes.  Each oracle either returns a result or raises. -/
structure Collection where
  query : QueryPayload → Except PyErr QueryResult
  get : GetArgs → Except PyErr GetResult
  del : DeleteArgs → Except PyErr Unit

/-- The backend client handle (an opaque collaborator per spec section 6),
modelled as an oracle for each backend call the handler makes. -/
structure Client where
  get_collection : String → Except PyErr Collection
  users_get : Except PyErr Unit
  table_create : String → Except PyErr Unit
  table_set_schema : String → List SchemaColumn → Except PyErr Unit
  table_delete : String → Except PyErr Unit
  table_get_columns : String → Except PyErr ApiResp
  branch_get_details : Except PyErr (List String)
  bulk_put_flush : String → List Row → Except PyErr Unit
  insert_with_id : String → PyVal → Row → Bool → Option (List String) →
    Except PyErr ApiResp
  record_insert : String → Row → Option (List String) → Except PyErr ApiResp

/-- One backend call, as recorded in the trace every handler method
returns. -/
inductive BackendCall where
  | getCollection (table : String) : BackendCall
  | queryCall (table : String) (p : QueryPayload) : BackendCall
  | getCall (table : String) (a : GetArgs) : BackendCall
  | collDelete (table : String) (a : DeleteArgs) : BackendCall
  | tableCreate (table : String) : BackendCall
  | setSchema (table : String) (cols : List SchemaColumn) : BackendCall
  | tableDelete (table : String) : BackendCall
  | getColumns (table : String) : BackendCall
  | getDetails : BackendCall
  | bulkPutFlush (table : String) (rows : List Row) : BackendCall
  | insertWithId (table : String) (id : PyVal) (payload : Row)
      (create_only : Bool) (columns : Option (List String)) : BackendCall
  | recordInsert (table : String) (payload : Row)
      (columns : Option (List String)) : BackendCall
deriving DecidableEq, Repr

/-- The tagged result every public handler operation returns (RESPONSE_TYPE
OK, ERROR or TABLE with its data frame; the data frame of select is the
payload dict it was built from). -/
inductive Response where
  | okR : Response
  | err (msg : String) : Response
  | tbl (payload : Dict) : Response
deriving DecidableEq, Repr

/-- Adapter connection state: the _client field (None when released) and the
is_connected flag. -/
structure AdapterState where
  client : Option Client
  is_connected : Bool

/-- Status result of check_connection (HandlerStatusResponse). -/
structure StatusResponse where
  success : Bool
  error_message : Option String

/-- Embeds XataHandler.disconnect (lines 58 to 63): a no-op when already
disconnected, otherwise releases the handle and clears the flag. -/
def disconnect (s : AdapterState) : AdapterState :=
  if s.is_connected = false then s
  else { client := none, is_connected := false }

/-- Embeds XataHandler.check_connection (lines 65 to 82).  The probe is the
users-get round trip on the held client; a None client raises an attribute
error inside the try block, exactly like any failing probe. -/
def check_connection (s : AdapterState) : StatusResponse × AdapterState :=
  let need_to_close : Bool := s.is_connected = false
  let probe : Except PyErr Unit :=
    match s.client with
    | none => .error (.attributeError "NoneType object has no attribute users")
    | some c => c.users_get
  let res : StatusResponse :=
    match probe with
    | .ok _ => { success := true, error_message := none }
    | .error e => { success := false, error_message := some e.msg }
  let s1 := if res.success && need_to_close then disconnect s else s
  let s2 :=
    if !res.success && s1.is_connected then { s1 with is_connected := false }
    else s1
  (res, s2)

/-- Connection-argument record (connection_data in __init__): each declared
setting is present or absent. -/
structure ConnectionData where
  db_url : Option PyVal
  api_key : Option PyVal
  dimension : Option PyVal
deriving DecidableEq, Repr

/-- Embeds lines 35 to 37 of __init__: the dimension stored in
_create_table_params is connection_data.get with the db_url key and the
default 8. -/
def init_create_table_dimension (cd : ConnectionData) : PyVal :=
  cd.db_url.getD (PyVal.vint 8)

/-- The three-column schema payload create_table sends (lines 90 to 100):
a vector column with the configured dimension, a text column, a JSON
column, in that order. -/
def schema_columns (dim : PyVal) : List SchemaColumn :=
  [⟨TableField.EMBEDDINGS, ColumnType.vector, some dim⟩,
   ⟨TableField.CONTENT, ColumnType.text, none⟩,
   ⟨TableField.METADATA, ColumnType.json, none⟩]

/-- The aggregated error message of create_table (line 105). -/
def createErrMsg (table_name msg : String) : String :=
  s!"Unable to create table {table_name}: {msg}"

/-- Embeds XataHandler.create_table (lines 84 to 107): create the table,
then set its schema; any failure of either backend call is caught and
converted into one error result naming the table. -/
def create_table (client : Client) (dim : PyVal) (table_name : String) :
    Response × List BackendCall :=
  match client.table_create table_name with
  | .error e =>
    (.err (createErrMsg table_name e.msg), [.tableCreate table_name])
  | .ok _ =>
    match client.table_set_schema table_name (schema_columns dim) with
    | .error e =>
      (.err (createErrMsg table_name e.msg),
       [.tableCreate table_name, .setSchema table_name (schema_columns dim)])
    | .ok _ =>
      (.okR, [.tableCreate table_name, .setSchema table_name (schema_columns dim)])

/-- The error message of drop_table (line 116). -/
def dropErrMsg (table_name msg : String) : String :=
  s!"Error deleting table {table_name}: {msg}"

/-- Embeds XataHandler.drop_table (lines 109 to 118): delete the table; a
backend failure is caught and converted into one error result naming the
table. -/
def drop_table (client : Client) (table_name : String) :
    Response × List BackendCall :=
  match client.table_delete table_name with
  | .error e => (.err (dropErrMsg table_name e.msg), [.tableDelete table_name])
  | .ok _ => (.okR, [.tableDelete table_name])

/-- The message of the exception raised at line 127 of get_columns on an
unsuccessful backend response. -/
def getColumnsErrMsg (msg : String) : String :=
  s!"Error getting columns: {msg}"

/-- Modelled from the spec: the value of super().get_columns(table_name)
at line 133, the base-class method of
mindsdb.integrations.libs.vectordatabase_handler (not under src/), which
per spec section 6 defers to the fixed three-column schema description.  It
is a fixed, input-independent, non-error tabular response; no claim depends
on its payload, so the payload is left empty. -/
def superGetColumnsResp : Response := Response.tbl []

/-- Embeds XataHandler.get_columns (lines 120 to 133): probe the table by
fetching its columns; a transport failure or a non-success backend status
is caught and converted into one error result holding just the message
(the f-string at line 131 embeds only the exception text); on success the
base-class description is returned. -/
def get_columns (client : Client) (table_name : String) :
    Response × List BackendCall :=
  match client.table_get_columns table_name with
  | .error e => (.err e.msg, [.getColumns table_name])
  | .ok resp =>
    if resp.is_success then (superGetColumnsResp, [.getColumns table_name])
    else (.err (getColumnsErrMsg resp.message), [.getColumns table_name])

/-- The error message of get_tables (line 149). -/
def getTablesErrMsg (msg : String) : String :=
  s!"Error getting list of tables: {msg}"

/-- Embeds XataHandler.get_tables (lines 135 to 150): list the table names
from the branch details as a one-column data frame; a backend failure is
caught and converted into one error result. -/
def get_tables (client : Client) : Response × List BackendCall :=
  match client.branch_get_details with
  | .error e => (.err (getTablesErrMsg e.msg), [.getDetails])
  | .ok names =>
    (.tbl [("TABLE_NAME", names.map PyVal.vstr)], [.getDetails])

/-- The input batch of insert: a pandas DataFrame, whose to_dict with the
records orientation yields this list of rows. -/
structure DataFrame where
  records : List Row
deriving Repr

/-- Embeds line 157 of insert: after to_dict the variable data is a plain
Python list, and the attribute access data.columns on a list raises
AttributeError before anything else happens. -/
def list_columns (_records : List Row) : Except PyErr (List String) :=
  .error (.attributeError "list object has no attribute columns")

/-- Embeds line 158 of insert: indexing the list data with the string key
metadata would itself raise TypeError; like line 157 it treats the list as
if it were still a DataFrame.  Unreachable, since line 157 raises first. -/
def metadata_json_loads (_records : List Row) : Except PyErr (List Row) :=
  .error (.typeError "list indices must be integers or slices, not str")

/-- The error message format shared by the three insert paths (lines 168,
191 and 206). -/
def insertErrMsg (table_name msg : String) : String :=
  s!"Error inserting data into {table_name}: {msg}"

/-- Embeds the id-less insert path of insert (lines 193 to 207): one plain
record insert; a transport failure or a non-success API status both become
one error result naming the table. -/
def insert_plain (client : Client) (table_name : String) (row : Row)
    (columns : Option (List String)) : Except PyErr Response × List BackendCall :=
  match client.record_insert table_name row columns with
  | .error e =>
    (.ok (.err (insertErrMsg table_name e.msg)),
     [.recordInsert table_name row columns])
  | .ok resp =>
    if resp.is_success then (.ok .okR, [.recordInsert table_name row columns])
    else
      (.ok (.err (insertErrMsg table_name resp.message)),
       [.recordInsert table_name row columns])

/-- Embeds the path dispatch of insert (lines 159 to 208): bulk for more
than one row, immediate success for zero rows, and for a singleton the
short-circuit test of line 173 — membership of id in the row, then
membership of the reserved id name in the declared column list, which
raises TypeError when columns is None. -/
def insert_dispatch (client : Client) (table_name : String) (data : List Row)
    (columns : Option (List String)) : Except PyErr Response × List BackendCall :=
  if data.length > 1 then
    match client.bulk_put_flush table_name data with
    | .error e =>
      (.ok (.err (insertErrMsg table_name e.msg)),
       [.bulkPutFlush table_name data])
    | .ok _ => (.ok .okR, [.bulkPutFlush table_name data])
  else if data.length = 0 then (.ok .okR, [])
  else
    let row := data.headD []
    if rowHas row TableField.ID then
      match columns with
      | none =>
        (.error (.typeError "argument of type NoneType is not iterable"), [])
      | some cs =>
        if cs.contains TableField.ID then
          let idv := (rowLookup row TableField.ID).getD PyVal.vnone
          let rest := rowDel row TableField.ID
          match client.insert_with_id table_name idv rest true (some cs) with
          | .error e =>
            (.ok (.err (insertErrMsg table_name e.msg)),
             [.insertWithId table_name idv rest true (some cs)])
          | .ok resp =>
            if resp.is_success then
              (.ok .okR, [.insertWithId table_name idv rest true (some cs)])
            else
              (.ok (.err (insertErrMsg table_name resp.message)),
               [.insertWithId table_name idv rest true (some cs)])
        else insert_plain client table_name row (some cs)
    else insert_plain client table_name row columns

/-- Embeds XataHandler.insert (lines 152 to 208).  Line 155 converts the
DataFrame to a list of records; line 157 then reads data.columns on that
list, which raises AttributeError, so control never reaches the metadata
conversion or the path dispatch. -/
def insert (client : Client) (table_name : String) (df : DataFrame)
    (columns : Option (List String)) : Except PyErr Response × List BackendCall :=
  let data := df.records
  match list_columns data with
  | .error e => (.error e, [])
  | .ok cols =>
    match (if cols.contains TableField.METADATA then metadata_json_loads data
           else .ok data) with
    | .error e => (.error e, [])
    | .ok data2 => insert_dispatch client table_name data2 columns

/-- Embeds lines 228 to 240 of select: the sublist of conditions that
target the reserved search-vector column, collapsed to its first element or
None. -/
def first_vector_condition (conditions : Option (List FilterCondition)) :
    Option FilterCondition :=
  match (conditions.getD []).filter
      (fun c => c.column == TableField.SEARCH_VECTOR) with
  | [] => none
  | c :: _ => some c

/-- Whether the condition list holds a condition on the reserved
search-vector column. -/
def has_vector_condition (conditions : Option (List FilterCondition)) : Bool :=
  (conditions.getD []).any (fun c => c.column == TableField.SEARCH_VECTOR)

/-- Embeds lines 241 to 247 of select: the values of the conditions on the
reserved id column, an empty collection collapsing to None. -/
def select_id_filters (conditions : Option (List FilterCondition)) :
    Option (List PyVal) :=
  match conditions with
  | none => none
  | some cs =>
    orNone ((cs.filter (fun c => c.column == TableField.ID)).map
      (fun c => c.value))

/-- Python indexing result[0]: IndexError on an empty list. -/
def index0 (l : List (List PyVal)) : Except PyErr (List PyVal) :=
  match l with
  | [] => .error (.indexError "list index out of range")
  | x :: _ => .ok x

/-- Embeds the dict comprehension of lines 287 to 291: walk the requested
columns left to right, skip the embeddings column, look each of the others
up in the base payload (KeyError when absent) and insert into the dict
being built. -/
def projectLoop (base : Dict) (cols : List String) (acc : Dict) :
    Except PyErr Dict :=
  match cols with
  | [] => .ok acc
  | c :: rest =>
    if c = TableField.EMBEDDINGS then projectLoop base rest acc
    else
      match dlookup base c with
      | some v => projectLoop base rest (dictInsert acc c v)
      | none => .error (.keyError c)

/-- The projection of lines 286 to 291 applied to a base payload. -/
def projectPayload (base : Dict) (cols : List String) : Except PyErr Dict :=
  projectLoop base cols []

/-- Embeds lines 280 to 284 of select: the uniform payload built from the
unwrapped id, content and metadata columns. -/
def base_payload (ids documents metadatas : List PyVal) : Dict :=
  [(TableField.ID, ids), (TableField.CONTENT, documents),
   (TableField.METADATA, metadatas)]

/-- Embeds lines 279 to 297 of select, continued: apply the projection when
a column list was supplied, then always attach the distance column when
distances are present, and wrap the result as a tabular response. -/
def select_finish (columns : Option (List String))
    (ids documents metadatas : List PyVal) (distances : Option (List PyVal)) :
    Except PyErr Response :=
  let payload : Dict := base_payload ids documents metadatas
  match (match columns with
         | none => Except.ok payload
         | some cols => projectPayload payload cols) with
  | .error e => .error e
  | .ok projected =>
    let final :=
      match distances with
      | none => projected
      | some d => dictInsert projected TableField.DISTANCE d
    .ok (.tbl final)

/-- Embeds lines 262 to 265 of select: the similarity-path result fields
are unwrapped one level deeper, taking the first batch of each field in
order (an empty field list raises IndexError). -/
def similarity_unwrap (columns : Option (List String)) (result : QueryResult) :
    Except PyErr Response :=
  match index0 result.ids with
  | .error e => .error e
  | .ok ids =>
    match index0 result.documents with
    | .error e => .error e
    | .ok documents =>
      match index0 result.metadatas with
      | .error e => .error e
      | .ok metadatas =>
        match index0 result.distances with
        | .error e => .error e
        | .ok distances =>
          select_finish columns ids documents metadatas (some distances)

/-- The requested-field list of the similarity query (line 256). -/
def includeFields : List String := ["metadatas", "documents", "distances"]

/-- Embeds the body of select after the collection is obtained (lines 226
to 297): translate the metadata conditions, extract the vector condition
and the id filters, then run either the similarity query (with distances)
or the plain retrieval (without). -/
def select_core (coll : Collection) (table_name : String)
    (columns : Option (List String)) (conditions : Option (List FilterCondition))
    (offset limit : Option Int) : Except PyErr Response × List BackendCall :=
  let filters := translate_metadata_condition conditions
  let id_filters := select_id_filters conditions
  match first_vector_condition conditions with
  | some vf =>
    let qp : QueryPayload :=
      { filters := filters, query_embeddings := some vf.value,
        fields := includeFields, n_results := limit }
    match coll.query qp with
    | .error e => (.error e, [.queryCall table_name qp])
    | .ok result =>
      (similarity_unwrap columns result, [.queryCall table_name qp])
  | none =>
    let ga : GetArgs :=
      { ids := id_filters, filters := filters, limit := limit, offset := offset }
    match coll.get ga with
    | .error e => (.error e, [.getCall table_name ga])
    | .ok result =>
      (select_finish columns result.ids result.documents result.metadatas none,
       [.getCall table_name ga])

/-- Embeds XataHandler.select (lines 217 to 297).  There is no try block
anywhere in select: any raise inside it propagates to the caller. -/
def select (client : Client) (table_name : String)
    (columns : Option (List String)) (conditions : Option (List FilterCondition))
    (offset limit : Option Int) : Except PyErr Response × List BackendCall :=
  match client.get_collection table_name with
  | .error e => (.error e, [.getCollection table_name])
  | .ok coll =>
    let (r, tr) := select_core coll table_name columns conditions offset limit
    (r, .getCollection table_name :: tr)

/-- The usage-error message of delete (line 320). -/
def deleteUsageMsg : String := "Delete query must have at least one condition!"

/-- Embeds lines 313 to 317 of delete: the id-condition values, an empty
collection collapsing to None. -/
def delete_id_filters (cs : List FilterCondition) : Option (List PyVal) :=
  orNone ((cs.filter (fun c => c.column == TableField.ID)).map
    (fun c => c.value))

/-- Embeds XataHandler.delete (lines 308 to 323): translate the metadata
conditions, collect the id filters (iterating conditions without a None
guard, so a None list raises TypeError), raise the usage error when both
filters are absent, otherwise issue exactly one backend delete carrying
both, returning an empty success result.  No try block: raises
propagate. -/
def delete (client : Client) (table_name : String)
    (conditions : Option (List FilterCondition)) :
    Except PyErr Response × List BackendCall :=
  let filters := translate_metadata_condition conditions
  match conditions with
  | none => (.error (.typeError "NoneType object is not iterable"), [])
  | some cs =>
    let id_filters := delete_id_filters cs
    if filters.isNone && id_filters.isNone then
      (.error (.exception deleteUsageMsg), [])
    else
      match client.get_collection table_name with
      | .error e => (.error e, [.getCollection table_name])
      | .ok coll =>
        let da : DeleteArgs := { ids := id_filters, filters := filters }
        match coll.del da with
        | .error e =>
          (.error e, [.getCollection table_name, .collDelete table_name da])
        | .ok _ =>
          (.ok .okR, [.getCollection table_name, .collDelete table_name da])

/-- A small concrete similarity-query result: one batch per field. -/
def pureQueryResult : QueryResult :=
  { ids := [[PyVal.vstr "r1", PyVal.vstr "r2"]],
    documents := [[PyVal.vstr "doc1", PyVal.vstr "doc2"]],
    metadatas := [[PyVal.vobj 1, PyVal.vobj 2]],
    distances := [[PyVal.vobj 3, PyVal.vobj 4]] }

/-- A small concrete plain-retrieval result. -/
def pureGetResult : GetResult :=
  { ids := [PyVal.vstr "r1"], documents := [PyVal.vstr "doc1"],
    metadatas := [PyVal.vobj 1] }

/-- A collection whose oracles answer the given results and whose delete
succeeds. -/
def mkCollection (q : QueryResult) (g : GetResult) : Collection :=
  { query := fun _ => .ok q, get := fun _ => .ok g, del := fun _ => .ok () }

/-- A client whose every backend call succeeds, with the given collection
results. -/
def mkClient (q : QueryResult) (g : GetResult) : Client :=
  { get_collection := fun _ => .ok (mkCollection q g),
    users_get := .ok (),
    table_create := fun _ => .ok (),
    table_set_schema := fun _ _ => .ok (),
    table_delete := fun _ => .ok (),
    table_get_columns := fun _ => .ok { is_success := true, message := "" },
    branch_get_details := .ok [],
    bulk_put_flush := fun _ _ => .ok (),
    insert_with_id := fun _ _ _ _ _ => .ok { is_success := true, message := "" },
    record_insert := fun _ _ _ => .ok { is_success := true, message := "" } }

/-- The all-success client with the small concrete results. -/
def pureClient : Client := mkClient pureQueryResult pureGetResult

/-- A collection whose query and get calls raise. -/
def boomCollection : Collection :=
  { query := fun _ => .error (.exception "boom"),
    get := fun _ => .error (.exception "boom"),
    del := fun _ => .error (.exception "boom") }

/-- A client whose collection-level backend calls raise. -/
def boomClient : Client :=
  { pureClient with get_collection := fun _ => .ok boomCollection }

/-- A client whose table-create backend call raises. -/
def tcBoomClient : Client :=
  { pureClient with table_create := fun _ => .error (.exception "boom") }

/-- Whether an operation outcome is a raised key-lookup exception. -/
def raises_key_error (r : Except PyErr Response) : Bool :=
  match r with
  | .error (.keyError _) => true
  | _ => false

/-- Whether an operation outcome is a returned (non-raised) result. -/
def returnsResult (r : Except PyErr Response) : Bool :=
  match r with
  | .ok _ => true
  | .error _ => false

/-- Number of similarity-query calls in a backend trace. -/
def countQuery (tr : List BackendCall) : Nat :=
  tr.countP (fun c => match c with | .queryCall _ _ => true | _ => false)

/-- Number of plain-retrieval calls in a backend trace. -/
def countGet (tr : List BackendCall) : Nat :=
  tr.countP (fun c => match c with | .getCall _ _ => true | _ => false)

/-- Number of backend delete calls in a backend trace. -/
def countDelete (tr : List BackendCall) : Nat :=
  tr.countP (fun c => match c with | .collDelete _ _ => true | _ => false)

lemma dlookup_dictInsert_self (d : Dict) (k : String) (v : List PyVal) :
    dlookup (dictInsert d k v) k = some v := by
  induction d with
  | nil => simp [dictInsert, dlookup]
  | cons kv rest ih =>
    by_cases h : kv.1 = k
    · simp [dictInsert, h, dlookup]
    · simp [dictInsert, h, dlookup, ih]

lemma dlookup_dictInsert_ne (d : Dict) (k k2 : String) (v : List PyVal)
    (h : k2 ≠ k) : dlookup (dictInsert d k v) k2 = dlookup d k2 := by
  have hne : ¬k = k2 := fun hh => h hh.symm
  induction d with
  | nil => simp [dictInsert, dlookup, hne]
  | cons kv rest ih =>
    obtain ⟨k1, v1⟩ := kv
    by_cases hk : k1 = k
    · subst hk
      simp [dictInsert, dlookup, hne]
    · simp only [dictInsert, if_neg hk, dlookup]
      by_cases hk2 : k1 = k2
      · simp [hk2]
      · simp [hk2, ih]

lemma dkeys_dictInsert_absent (d : Dict) (k : String) (v : List PyVal)
    (h : dlookup d k = none) : dkeys (dictInsert d k v) = dkeys d ++ [k] := by
  induction d with
  | nil => simp [dictInsert, dkeys]
  | cons kv rest ih =>
    by_cases hk : kv.1 = k
    · simp [dlookup, hk] at h
    · simp [dlookup, hk] at h
      simp [dictInsert, hk, dkeys] at ih ⊢
      exact ih h

lemma projectLoop_lookup_none (cols : List String) (base acc : Dict)
    (k : String) (hb : dlookup base k = none) (ha : dlookup acc k = none)
    (q : Dict) (h : projectLoop base cols acc = .ok q) :
    dlookup q k = none := by
  induction cols generalizing acc with
  | nil =>
    simp [projectLoop] at h
    exact h ▸ ha
  | cons c rest ih =>
    by_cases hc : c = TableField.EMBEDDINGS
    · simp [projectLoop, hc] at h
      exact ih acc ha h
    · simp [projectLoop, hc] at h
      cases hl : dlookup base c with
      | none => simp [hl] at h
      | some v =>
        simp [hl] at h
        have hck : c ≠ k := by
          intro hck
          rw [hck, hb] at hl
          exact Option.noConfusion hl
        refine ih (dictInsert acc c v) ?_ h
        rw [dlookup_dictInsert_ne acc c k v (fun hh => hck hh.symm)]
        exact ha

lemma projectLoop_keys (cols : List String) (base acc : Dict) (q : Dict)
    (h : projectLoop base cols acc = .ok q) (hnd : cols.Nodup)
    (hdisj : ∀ c ∈ cols, dlookup acc c = none) :
    dkeys q = dkeys acc ++ cols.filter (fun c => c != TableField.EMBEDDINGS) := by
  induction cols generalizing acc with
  | nil =>
    simp [projectLoop] at h
    simp [h]
  | cons c rest ih =>
    rcases List.nodup_cons.mp hnd with ⟨hcr, hndr⟩
    by_cases hc : c = TableField.EMBEDDINGS
    · simp [projectLoop, hc] at h
      have := ih acc h hndr (fun c2 hc2 => hdisj c2 (List.mem_cons_of_mem c hc2))
      simpa [hc] using this
    · simp [projectLoop, hc] at h
      cases hl : dlookup base c with
      | none => simp [hl] at h
      | some v =>
        simp [hl] at h
        have hacc : dlookup acc c = none := hdisj c (List.mem_cons_self c rest)
        have hdisj2 : ∀ c2 ∈ rest, dlookup (dictInsert acc c v) c2 = none := by
          intro c2 hc2
          have hne : c2 ≠ c := fun hh => hcr (hh ▸ hc2)
          rw [dlookup_dictInsert_ne acc c c2 v hne]
          exact hdisj c2 (List.mem_cons_of_mem c hc2)
        have := ih (dictInsert acc c v) h hndr hdisj2
        rw [this, dkeys_dictInsert_absent acc c v hacc]
        simp [hc, List.append_assoc]

lemma projectLoop_err_of_bad (cols : List String) (base acc : Dict)
    (c0 : String) (hmem : c0 ∈ cols) (hc0 : c0 ≠ TableField.EMBEDDINGS)
    (hb : dlookup base c0 = none) :
    ∃ c1, projectLoop base cols acc = .error (.keyError c1) := by
  induction cols generalizing acc with
  | nil => exact absurd hmem (List.not_mem_nil c0)
  | cons c rest ih =>
    by_cases hc : c = TableField.EMBEDDINGS
    · have hmem2 : c0 ∈ rest := by
        cases List.mem_cons.mp hmem with
        | inl hh => exact absurd (hh ▸ hc) hc0
        | inr hh => exact hh
      simp only [projectLoop, if_pos hc]
      exact ih acc hmem2
    · simp only [projectLoop, if_neg hc]
      cases hl : dlookup base c with
      | none => exact ⟨c, rfl⟩
      | some v =>
        have hmem2 : c0 ∈ rest := by
          cases List.mem_cons.mp hmem with
          | inl hh =>
            exfalso
            rw [hh, hl] at hb
            exact Option.noConfusion hb
          | inr hh => exact hh
        exact ih (dictInsert acc c v) hmem2

lemma projectLoop_ok_of_good (cols : List String) (base acc : Dict)
    (hgood : ∀ c ∈ cols, c ≠ TableField.EMBEDDINGS →
      (dlookup base c).isSome = true) :
    ∃ q, projectLoop base cols acc = .ok q := by
  induction cols generalizing acc with
  | nil => exact ⟨acc, rfl⟩
  | cons c rest ih =>
    by_cases hc : c = TableField.EMBEDDINGS
    · simp only [projectLoop, if_pos hc]
      exact ih acc (fun c2 h2 => hgood c2 (List.mem_cons_of_mem c h2))
    · simp only [projectLoop, if_neg hc]
      cases hl : dlookup base c with
      | none =>
        have := hgood c (List.mem_cons_self c rest) hc
        rw [hl] at this
        exact Bool.noConfusion this
      | some v =>
        exact ih (dictInsert acc c v) (fun c2 h2 => hgood c2 (List.mem_cons_of_mem c h2))

lemma base_payload_distance_none (ids documents metadatas : List PyVal) :
    dlookup (base_payload ids documents metadatas) TableField.DISTANCE = none := by
  simp [base_payload, dlookup, TableField.ID, TableField.CONTENT,
    TableField.METADATA, TableField.DISTANCE]

lemma base_payload_embeddings_none (ids documents metadatas : List PyVal) :
    dlookup (base_payload ids documents metadatas) TableField.EMBEDDINGS = none := by
  simp [base_payload, dlookup, TableField.ID, TableField.CONTENT,
    TableField.METADATA, TableField.EMBEDDINGS]

lemma base_payload_keys (ids documents metadatas : List PyVal) :
    dkeys (base_payload ids documents metadatas) =
      [TableField.ID, TableField.CONTENT, TableField.METADATA] := rfl

lemma first_vector_condition_isSome (conditions : Option (List FilterCondition)) :
    (first_vector_condition conditions).isSome = has_vector_condition conditions := by
  unfold first_vector_condition has_vector_condition
  induction conditions.getD [] with
  | nil => rfl
  | cons c rest ih =>
    cases hc : c.column == TableField.SEARCH_VECTOR with
    | true => simp [List.filter_cons, hc]
    | false => simpa [List.filter_cons, hc] using ih

/-- The tail the distance column contributes to the key sequence. -/
def distTail (distances : Option (List PyVal)) : List String :=
  match distances with
  | none => []
  | some _ => [TableField.DISTANCE]

lemma select_finish_distance_some (columns : Option (List String))
    (ids documents metadatas dist : List PyVal) (p : Dict)
    (h : select_finish columns ids documents metadatas (some dist) =
      .ok (.tbl p)) :
    dlookup p TableField.DISTANCE = some dist := by
  unfold select_finish at h
  cases columns with
  | none =>
    simp at h
    subst h
    exact dlookup_dictInsert_self _ _ _
  | some cols =>
    simp only at h
    cases hp : projectPayload (base_payload ids documents metadatas) cols with
    | error e => simp [hp] at h
    | ok projected =>
      simp [hp] at h
      subst h
      exact dlookup_dictInsert_self _ _ _

lemma select_finish_distance_none (columns : Option (List String))
    (ids documents metadatas : List PyVal) (p : Dict)
    (h : select_finish columns ids documents metadatas none = .ok (.tbl p)) :
    dlookup p TableField.DISTANCE = none := by
  unfold select_finish at h
  cases columns with
  | none =>
    simp at h
    subst h
    exact base_payload_distance_none ids documents metadatas
  | some cols =>
    simp only at h
    cases hp : projectPayload (base_payload ids documents metadatas) cols with
    | error e => simp [hp] at h
    | ok projected =>
      simp [hp] at h
      subst h
      exact projectLoop_lookup_none cols _ [] TableField.DISTANCE
        (base_payload_distance_none ids documents metadatas) rfl projected hp

lemma select_finish_keys_none (ids documents metadatas : List PyVal)
    (distances : Option (List PyVal)) (p : Dict)
    (h : select_finish none ids documents metadatas distances = .ok (.tbl p)) :
    dkeys p = [TableField.ID, TableField.CONTENT, TableField.METADATA] ++
      distTail distances := by
  unfold select_finish at h
  cases distances with
  | none =>
    simp at h
    subst h
    simp [distTail, base_payload_keys]
  | some d =>
    simp at h
    subst h
    rw [dkeys_dictInsert_absent _ _ _ (base_payload_distance_none ids documents metadatas)]
    simp [distTail, base_payload_keys]

lemma select_finish_keys_some (cols : List String)
    (ids documents metadatas : List PyVal) (distances : Option (List PyVal))
    (p : Dict) (hnd : cols.Nodup)
    (h : select_finish (some cols) ids documents metadatas distances =
      .ok (.tbl p)) :
    dkeys p = cols.filter (fun c => c != TableField.EMBEDDINGS) ++
      distTail distances := by
  unfold select_finish at h
  simp only at h
  cases hp : projectPayload (base_payload ids documents metadatas) cols with
  | error e => simp [hp] at h
  | ok projected =>
    have hkeys : dkeys projected =
        cols.filter (fun c => c != TableField.EMBEDDINGS) := by
      have := projectLoop_keys cols _ [] projected hp hnd (fun c _ => rfl)
      simpa [dkeys] using this
    cases distances with
    | none =>
      simp [hp] at h
      subst h
      simp [distTail, hkeys]
    | some d =>
      simp [hp] at h
      subst h
      have hdn : dlookup projected TableField.DISTANCE = none :=
        projectLoop_lookup_none cols _ [] TableField.DISTANCE
          (base_payload_distance_none ids documents metadatas) rfl projected hp
      rw [dkeys_dictInsert_absent _ _ _ hdn, hkeys]
      simp [distTail]

lemma select_finish_embeddings_absent (columns : Option (List String))
    (ids documents metadatas : List PyVal) (distances : Option (List PyVal))
    (p : Dict)
    (h : select_finish columns ids documents metadatas distances = .ok (.tbl p)) :
    dlookup p TableField.EMBEDDINGS = none := by
  unfold select_finish at h
  have hemb : TableField.EMBEDDINGS ≠ TableField.DISTANCE := by
    simp [TableField.EMBEDDINGS, TableField.DISTANCE]
  cases columns with
  | none =>
    cases distances with
    | none =>
      simp at h
      subst h
      exact base_payload_embeddings_none ids documents metadatas
    | some d =>
      simp at h
      subst h
      rw [dlookup_dictInsert_ne _ _ _ _ hemb]
      exact base_payload_embeddings_none ids documents metadatas
  | some cols =>
    simp only at h
    cases hp : projectPayload (base_payload ids documents metadatas) cols with
    | error e => simp [hp] at h
    | ok projected =>
      have hpe : dlookup projected TableField.EMBEDDINGS = none :=
        projectLoop_lookup_none cols _ [] TableField.EMBEDDINGS
          (base_payload_embeddings_none ids documents metadatas) rfl projected hp
      cases distances with
      | none =>
        simp [hp] at h
        subst h
        exact hpe
      | some d =>
        simp [hp] at h
        subst h
        rw [dlookup_dictInsert_ne _ _ _ _ hemb]
        exact hpe

lemma similarity_unwrap_ok (columns : Option (List String))
    (result : QueryResult) (p : Dict)
    (h : similarity_unwrap columns result = .ok (.tbl p)) :
    ∃ ids documents metadatas distances,
      index0 result.ids = .ok ids ∧
      index0 result.documents = .ok documents ∧
      index0 result.metadatas = .ok metadatas ∧
      index0 result.distances = .ok distances ∧
      select_finish columns ids documents metadatas (some distances) =
        .ok (.tbl p) := by
  unfold similarity_unwrap at h
  cases h1 : index0 result.ids with
  | error e => simp [h1] at h
  | ok ids =>
    rw [h1] at h
    cases h2 : index0 result.documents with
    | error e => simp [h2] at h
    | ok documents =>
      rw [h2] at h
      cases h3 : index0 result.metadatas with
      | error e => simp [h3] at h
      | ok metadatas =>
        rw [h3] at h
        cases h4 : index0 result.distances with
        | error e => simp [h4] at h
        | ok distances =>
          rw [h4] at h
          exact ⟨ids, documents, metadatas, distances, rfl, rfl, rfl, rfl, h⟩

/-- Decomposition of a successful tabular select: the collection was
obtained, and either the similarity path ran (exactly one query call, the
payload finalized with distances) or the plain path ran (exactly one get
call, no distances), according to the presence of a vector condition. -/
lemma select_ok_elim (client : Client) (t : String)
    (cols : Option (List String)) (conds : Option (List FilterCondition))
    (off lim : Option Int) (p : Dict) (tr : List BackendCall)
    (h : select client t cols conds off lim = (.ok (.tbl p), tr)) :
    ∃ coll, client.get_collection t = .ok coll ∧
      ((has_vector_condition conds = true ∧
        ∃ qp ids documents metadatas distances,
          tr = [.getCollection t, .queryCall t qp] ∧
          select_finish cols ids documents metadatas (some distances) =
            .ok (.tbl p)) ∨
       (has_vector_condition conds = false ∧
        ∃ ga ids documents metadatas,
          tr = [.getCollection t, .getCall t ga] ∧
          select_finish cols ids documents metadatas none = .ok (.tbl p))) := by
  unfold select at h
  cases hgc : client.get_collection t with
  | error e =>
    rw [hgc] at h
    simp at h
  | ok coll =>
    rw [hgc] at h
    refine ⟨coll, rfl, ?_⟩
    cases hsc : select_core coll t cols conds off lim with
    | mk r tr2 =>
      simp only [hsc, Prod.mk.injEq] at h
      obtain ⟨hr, htr⟩ := h
      unfold select_core at hsc
      cases hv : first_vector_condition conds with
      | some vf =>
        rw [hv] at hsc
        simp only at hsc
        have hvec : has_vector_condition conds = true := by
          rw [← first_vector_condition_isSome, hv]
          rfl
        cases hq : coll.query
            { filters := translate_metadata_condition conds,
              query_embeddings := some vf.value,
              fields := includeFields, n_results := lim } with
        | error e =>
          rw [hq] at hsc
          simp only [Prod.mk.injEq] at hsc
          rw [← hsc.1] at hr
          exact absurd hr (by simp)
        | ok result =>
          rw [hq] at hsc
          simp only [Prod.mk.injEq] at hsc
          rw [← hsc.1] at hr
          obtain ⟨ids, documents, metadatas, distances, _, _, _, _, hf⟩ :=
            similarity_unwrap_ok cols result p hr
          refine Or.inl ⟨hvec,
            { filters := translate_metadata_condition conds,
              query_embeddings := some vf.value,
              fields := includeFields, n_results := lim },
            ids, documents, metadatas, distances, ?_, hf⟩
          rw [← htr, ← hsc.2]
      | none =>
        rw [hv] at hsc
        simp only at hsc
        have hvec : has_vector_condition conds = false := by
          rw [← first_vector_condition_isSome, hv]
          rfl
        cases hg : coll.get
            { ids := select_id_filters conds,
              filters := translate_metadata_condition conds,
              limit := lim, offset := off } with
        | error e =>
          rw [hg] at hsc
          simp only [Prod.mk.injEq] at hsc
          rw [← hsc.1] at hr
          exact absurd hr (by simp)
        | ok result =>
          rw [hg] at hsc
          simp only [Prod.mk.injEq] at hsc
          rw [← hsc.1] at hr
          refine Or.inr ⟨hvec,
            { ids := select_id_filters conds,
              filters := translate_metadata_condition conds,
              limit := lim, offset := off },
            result.ids, result.documents, result.metadatas, ?_, hr⟩
          rw [← htr, ← hsc.2]

/-- An example condition on the reserved search-vector column. -/
def vecCondEx : FilterCondition :=
  ⟨TableField.SEARCH_VECTOR, FilterOperator.equal, PyVal.vobj 9⟩

/-- An example condition on the reserved id column. -/
def idCondEx : FilterCondition :=
  ⟨TableField.ID, FilterOperator.equal, PyVal.vstr "x"⟩

/-- Claim C1: for every select call that returns a tabular result, the
result carries a distance column if and only if the condition list contains
a condition targeting the reserved search-vector column; moreover the
backend trace shows exactly one similarity query and no plain retrieval
when a vector condition is present, and exactly one plain retrieval and no
similarity query otherwise, so a select is never both a similarity search
and a plain retrieval. -/
theorem select_distance_iff_vector (client : Client) (t : String)
    (cols : Option (List String)) (conds : Option (List FilterCondition))
    (off lim : Option Int) (p : Dict) (tr : List BackendCall)
    (h : select client t cols conds off lim = (.ok (.tbl p), tr)) :
    (dlookup p TableField.DISTANCE).isSome = has_vector_condition conds ∧
    (has_vector_condition conds = true →
      countQuery tr = 1 ∧ countGet tr = 0) ∧
    (has_vector_condition conds = false →
      countQuery tr = 0 ∧ countGet tr = 1) := by
  obtain ⟨coll, hgc, hcase⟩ := select_ok_elim client t cols conds off lim p tr h
  cases hcase with
  | inl hsim =>
    obtain ⟨hvec, qp, ids, documents, metadatas, distances, htr, hf⟩ := hsim
    have hd := select_finish_distance_some cols ids documents metadatas
      distances p hf
    subst htr
    refine ⟨by rw [hd, hvec]; rfl, fun _ => ⟨rfl, rfl⟩, fun hfalse => ?_⟩
    rw [hvec] at hfalse
    exact Bool.noConfusion hfalse
  | inr hplain =>
    obtain ⟨hvec, ga, ids, documents, metadatas, htr, hf⟩ := hplain
    have hd := select_finish_distance_none cols ids documents metadatas p hf
    subst htr
    refine ⟨by rw [hd, hvec]; rfl, fun htrue => ?_, fun _ => ⟨rfl, rfl⟩⟩
    rw [hvec] at htrue
    exact Bool.noConfusion htrue

/-- Witness for C1 at a concrete vector-search select against the
all-success client. -/
theorem select_distance_iff_vector_witness :
    (dlookup
      [(TableField.ID, [PyVal.vstr "r1", PyVal.vstr "r2"]),
       (TableField.CONTENT, [PyVal.vstr "doc1", PyVal.vstr "doc2"]),
       (TableField.METADATA, [PyVal.vobj 1, PyVal.vobj 2]),
       (TableField.DISTANCE, [PyVal.vobj 3, PyVal.vobj 4])]
      TableField.DISTANCE).isSome = has_vector_condition (some [vecCondEx]) ∧
    countQuery [BackendCall.getCollection "docs",
      BackendCall.queryCall "docs"
        { filters := none, query_embeddings := some (PyVal.vobj 9),
          fields := includeFields, n_results := none }] = 1 := by
  have h := select_distance_iff_vector pureClient "docs" none
    (some [vecCondEx]) none none
    [(TableField.ID, [PyVal.vstr "r1", PyVal.vstr "r2"]),
     (TableField.CONTENT, [PyVal.vstr "doc1", PyVal.vstr "doc2"]),
     (TableField.METADATA, [PyVal.vobj 1, PyVal.vobj 2]),
     (TableField.DISTANCE, [PyVal.vobj 3, PyVal.vobj 4])]
    [BackendCall.getCollection "docs",
     BackendCall.queryCall "docs"
       { filters := none, query_embeddings := some (PyVal.vobj 9),
         fields := includeFields, n_results := none }]
    (by rfl)
  exact ⟨h.1, (h.2.1 (by rfl)).1⟩

/-- Claim C4: for every select call returning a tabular result, a supplied
projection list (without duplicates) yields exactly the requested columns
with the embeddings column forcibly excluded even if named; an omitted
projection list yields all uniform columns; and the distance column is
appended exactly when a similarity search executed; the embeddings column
is never present in any returned payload. -/
theorem select_projection_exact (client : Client) (t : String)
    (conds : Option (List FilterCondition)) (off lim : Option Int) :
    (∀ cols p tr, cols.Nodup →
      select client t (some cols) conds off lim = (.ok (.tbl p), tr) →
      dkeys p = cols.filter (fun c => c != TableField.EMBEDDINGS) ++
        (if has_vector_condition conds then [TableField.DISTANCE] else [])) ∧
    (∀ p tr,
      select client t none conds off lim = (.ok (.tbl p), tr) →
      dkeys p = [TableField.ID, TableField.CONTENT, TableField.METADATA] ++
        (if has_vector_condition conds then [TableField.DISTANCE] else [])) ∧
    (∀ cols p tr,
      select client t cols conds off lim = (.ok (.tbl p), tr) →
      dlookup p TableField.EMBEDDINGS = none) := by
  refine ⟨?_, ?_, ?_⟩
  · intro cols p tr hnd h
    obtain ⟨coll, hgc, hcase⟩ :=
      select_ok_elim client t (some cols) conds off lim p tr h
    cases hcase with
    | inl hsim =>
      obtain ⟨hvec, qp, ids, documents, metadatas, distances, htr, hf⟩ := hsim
      rw [select_finish_keys_some cols ids documents metadatas
        (some distances) p hnd hf, hvec]
      rfl
    | inr hplain =>
      obtain ⟨hvec, ga, ids, documents, metadatas, htr, hf⟩ := hplain
      rw [select_finish_keys_some cols ids documents metadatas none p hnd hf,
        hvec]
      rfl
  · intro p tr h
    obtain ⟨coll, hgc, hcase⟩ :=
      select_ok_elim client t none conds off lim p tr h
    cases hcase with
    | inl hsim =>
      obtain ⟨hvec, qp, ids, documents, metadatas, distances, htr, hf⟩ := hsim
      rw [select_finish_keys_none ids documents metadatas (some distances) p hf,
        hvec]
      rfl
    | inr hplain =>
      obtain ⟨hvec, ga, ids, documents, metadatas, htr, hf⟩ := hplain
      rw [select_finish_keys_none ids documents metadatas none p hf, hvec]
      rfl
  · intro cols p tr h
    obtain ⟨coll, hgc, hcase⟩ :=
      select_ok_elim client t cols conds off lim p tr h
    cases hcase with
    | inl hsim =>
      obtain ⟨hvec, qp, ids, documents, metadatas, distances, htr, hf⟩ := hsim
      exact select_finish_embeddings_absent cols ids documents metadatas
        (some distances) p hf
    | inr hplain =>
      obtain ⟨hvec, ga, ids, documents, metadatas, htr, hf⟩ := hplain
      exact select_finish_embeddings_absent cols ids documents metadatas
        none p hf

/-- Witness for C4 at a concrete similarity select against the all-success
client, requesting content, embeddings and id: the embeddings column is
dropped, the distance column is appended. -/
theorem select_projection_exact_witness :
    (["content", "embeddings", "id"] : List String).Nodup ∧
    dkeys [(TableField.CONTENT, [PyVal.vstr "doc1", PyVal.vstr "doc2"]),
           (TableField.ID, [PyVal.vstr "r1", PyVal.vstr "r2"]),
           (TableField.DISTANCE, [PyVal.vobj 3, PyVal.vobj 4])] =
      ["content", "id", "distance"] := by
  refine ⟨by decide, ?_⟩
  have h := (select_projection_exact pureClient "docs" (some [vecCondEx])
    none none).1 ["content", "embeddings", "id"]
    [(TableField.CONTENT, [PyVal.vstr "doc1", PyVal.vstr "doc2"]),
     (TableField.ID, [PyVal.vstr "r1", PyVal.vstr "r2"]),
     (TableField.DISTANCE, [PyVal.vobj 3, PyVal.vobj 4])]
    [BackendCall.getCollection "docs",
     BackendCall.queryCall "docs"
       { filters := none, query_embeddings := some (PyVal.vobj 9),
         fields := includeFields, n_results := none }]
    (by decide) (by rfl)
  simpa using h

lemma base_payload_lookup_none_of_ne (ids documents metadatas : List PyVal)
    (c : String) (h1 : c ≠ TableField.ID) (h2 : c ≠ TableField.CONTENT)
    (h3 : c ≠ TableField.METADATA) :
    dlookup (base_payload ids documents metadatas) c = none := by
  have g1 : ¬TableField.ID = c := fun h => h1 h.symm
  have g2 : ¬TableField.CONTENT = c := fun h => h2 h.symm
  have g3 : ¬TableField.METADATA = c := fun h => h3 h.symm
  simp [base_payload, dlookup, g1, g2, g3]

lemma base_payload_lookup_isSome (ids documents metadatas : List PyVal)
    (c : String)
    (h : c = TableField.ID ∨ c = TableField.CONTENT ∨ c = TableField.METADATA) :
    (dlookup (base_payload ids documents metadatas) c).isSome = true := by
  rcases h with h | h | h <;> subst h <;>
    simp [base_payload, dlookup, TableField.ID, TableField.CONTENT,
      TableField.METADATA]

lemma select_finish_bad_col (cols : List String)
    (ids documents metadatas : List PyVal) (distances : Option (List PyVal))
    (c0 : String) (hmem : c0 ∈ cols) (he : c0 ≠ TableField.EMBEDDINGS)
    (h1 : c0 ≠ TableField.ID) (h2 : c0 ≠ TableField.CONTENT)
    (h3 : c0 ≠ TableField.METADATA) :
    raises_key_error
      (select_finish (some cols) ids documents metadatas distances) = true := by
  obtain ⟨c1, hc1⟩ := projectLoop_err_of_bad cols
    (base_payload ids documents metadatas) [] c0 hmem he
    (base_payload_lookup_none_of_ne ids documents metadatas c0 h1 h2 h3)
  simp [select_finish, projectPayload, hc1, raises_key_error]

lemma select_finish_good_cols (cols : List String)
    (ids documents metadatas : List PyVal) (distances : Option (List PyVal))
    (hgood : ∀ c ∈ cols, c = TableField.EMBEDDINGS ∨ c = TableField.ID ∨
      c = TableField.CONTENT ∨ c = TableField.METADATA) :
    returnsResult
      (select_finish (some cols) ids documents metadatas distances) = true := by
  obtain ⟨q, hq⟩ := projectLoop_ok_of_good cols
    (base_payload ids documents metadatas) []
    (fun c hc hne => base_payload_lookup_isSome ids documents metadatas c
      ((hgood c hc).resolve_left hne))
  cases distances <;>
    simp [select_finish, projectPayload, hq, returnsResult]

/-- Claim C10: for every select call with a supplied projection list against
a backend whose calls succeed (with nonempty similarity batches), the
projection lookup succeeds exactly when every listed column other than
embeddings is one of id, content or metadata; naming any other column —
distance included, since distance is attached only after projection — makes
the call raise a key-lookup exception rather than return a tabular or
error result. -/
theorem select_projection_key_lookup
    (qi qd qm qs : List PyVal) (qir qdr qmr qsr : List (List PyVal))
    (g : GetResult) (t : String) (conds : Option (List FilterCondition))
    (off lim : Option Int) (cols : List String) :
    ((∃ c ∈ cols, c ≠ TableField.EMBEDDINGS ∧ c ≠ TableField.ID ∧
        c ≠ TableField.CONTENT ∧ c ≠ TableField.METADATA) →
      raises_key_error
        (select (mkClient ⟨qi :: qir, qd :: qdr, qm :: qmr, qs :: qsr⟩ g)
          t (some cols) conds off lim).1 = true) ∧
    ((∀ c ∈ cols, c = TableField.EMBEDDINGS ∨ c = TableField.ID ∨
        c = TableField.CONTENT ∨ c = TableField.METADATA) →
      returnsResult
        (select (mkClient ⟨qi :: qir, qd :: qdr, qm :: qmr, qs :: qsr⟩ g)
          t (some cols) conds off lim).1 = true) := by
  have hfst : (select (mkClient ⟨qi :: qir, qd :: qdr, qm :: qmr, qs :: qsr⟩ g)
      t (some cols) conds off lim).1 =
      (select_core (mkCollection ⟨qi :: qir, qd :: qdr, qm :: qmr, qs :: qsr⟩ g)
        t (some cols) conds off lim).1 := by
    unfold select mkClient
    cases hsc : select_core
        (mkCollection ⟨qi :: qir, qd :: qdr, qm :: qmr, qs :: qsr⟩ g)
        t (some cols) conds off lim with
    | mk r tr2 => simp [hsc]
  have hcore : (select_core
      (mkCollection ⟨qi :: qir, qd :: qdr, qm :: qmr, qs :: qsr⟩ g)
      t (some cols) conds off lim).1 =
      (match first_vector_condition conds with
       | some _ => select_finish (some cols) qi qd qm (some qs)
       | none => select_finish (some cols) g.ids g.documents g.metadatas none) := by
    cases hv : first_vector_condition conds with
    | some vf =>
      simp only [select_core, hv, mkCollection]
      rfl
    | none =>
      simp only [select_core, hv, mkCollection]
  constructor
  · intro hbad
    obtain ⟨c0, hmem, he, h1, h2, h3⟩ := hbad
    rw [hfst, hcore]
    cases hv : first_vector_condition conds with
    | some vf =>
      exact select_finish_bad_col cols qi qd qm (some qs) c0 hmem he h1 h2 h3
    | none =>
      exact select_finish_bad_col cols g.ids g.documents g.metadatas none
        c0 hmem he h1 h2 h3
  · intro hgood
    rw [hfst, hcore]
    cases hv : first_vector_condition conds with
    | some vf => exact select_finish_good_cols cols qi qd qm (some qs) hgood
    | none =>
      exact select_finish_good_cols cols g.ids g.documents g.metadatas
        none hgood

/-- Witness for C10: requesting the distance column raises a key-lookup
error, while requesting id and content succeeds, at a concrete vector
select against an all-success backend. -/
theorem select_projection_key_lookup_witness :
    raises_key_error
      (select (mkClient ⟨[[PyVal.vstr "r1"]], [[PyVal.vstr "doc1"]],
        [[PyVal.vobj 1]], [[PyVal.vobj 3]]⟩ pureGetResult)
        "docs" (some ["id", "distance"]) (some [vecCondEx]) none none).1 =
      true ∧
    returnsResult
      (select (mkClient ⟨[[PyVal.vstr "r1"]], [[PyVal.vstr "doc1"]],
        [[PyVal.vobj 1]], [[PyVal.vobj 3]]⟩ pureGetResult)
        "docs" (some ["id", "content"]) (some [vecCondEx]) none none).1 =
      true := by
  constructor
  · exact (select_projection_key_lookup [PyVal.vstr "r1"] [PyVal.vstr "doc1"]
      [PyVal.vobj 1] [PyVal.vobj 3] [] [] [] [] pureGetResult "docs"
      (some [vecCondEx]) none none ["id", "distance"]).1 (by decide)
  · exact (select_projection_key_lookup [PyVal.vstr "r1"] [PyVal.vstr "doc1"]
      [PyVal.vobj 1] [PyVal.vobj 3] [] [] [] [] pureGetResult "docs"
      (some [vecCondEx]) none none ["id", "content"]).2 (by decide)

/-- Claim C9: check_connection obeys the two-state machine: whenever the
probe fails the adapter ends disconnected regardless of its prior state,
and whenever it is called on a previously-disconnected adapter the adapter
is disconnected again after the call returns (in particular when the probe
succeeds, since the connection was opened only for the probe). -/
theorem check_connection_two_state (s : AdapterState) :
    ((check_connection s).1.success = false →
      (check_connection s).2.is_connected = false) ∧
    (s.is_connected = false →
      (check_connection s).2.is_connected = false) := by
  obtain ⟨client, conn⟩ := s
  cases client with
  | none =>
    cases conn <;> simp [check_connection, disconnect]
  | some c =>
    cases hp : c.users_get with
    | error e =>
      cases conn <;> simp [check_connection, disconnect, hp]
    | ok u =>
      cases conn <;> simp [check_connection, disconnect, hp]

/-- Witness for C9: a previously-disconnected adapter holding a live client
whose probe succeeds is disconnected again after check_connection. -/
theorem check_connection_two_state_witness :
    (check_connection ⟨some pureClient, false⟩).2.is_connected = false :=
  (check_connection_two_state ⟨some pureClient, false⟩).2 (by rfl)

/-- Claim C5: a delete whose condition list yields neither a metadata
filter nor an id filter raises the usage error immediately and issues no
backend call; a delete with at least one such condition issues exactly one
backend delete call carrying both the translated id filters and metadata
filters, and success returns an empty-payload success result. -/
theorem delete_requires_condition (client : Client) (t : String)
    (cs : List FilterCondition) :
    ((translate_metadata_condition (some cs)).isNone = true →
      (delete_id_filters cs).isNone = true →
      delete client t (some cs) = (.error (.exception deleteUsageMsg), [])) ∧
    (∀ coll, client.get_collection t = .ok coll →
      coll.del ⟨delete_id_filters cs, translate_metadata_condition (some cs)⟩ =
        .ok () →
      ((translate_metadata_condition (some cs)).isNone = false ∨
        (delete_id_filters cs).isNone = false) →
      delete client t (some cs) =
        (.ok .okR,
         [.getCollection t,
          .collDelete t
            ⟨delete_id_filters cs, translate_metadata_condition (some cs)⟩])) := by
  constructor
  · intro hf hi
    unfold delete
    simp [hf, hi]
  · intro coll hgc hdel hone
    unfold delete
    have hcond : ((translate_metadata_condition (some cs)).isNone &&
        (delete_id_filters cs).isNone) = false := by
      cases hone with
      | inl h => simp [h]
      | inr h => simp [h]
    simp [hcond, hgc, hdel]

/-- Witness for C5: an empty condition list raises the usage error with no
backend call, and a single id condition issues exactly one backend delete
carrying the id filter, returning the empty success result. -/
theorem delete_requires_condition_witness :
    delete pureClient "docs" (some []) =
      (.error (.exception deleteUsageMsg), []) ∧
    delete pureClient "docs" (some [idCondEx]) =
      (.ok .okR,
       [.getCollection "docs",
        .collDelete "docs" ⟨some [PyVal.vstr "x"], none⟩]) := by
  constructor
  · exact (delete_requires_condition pureClient "docs" []).1 (by rfl) (by rfl)
  · exact (delete_requires_condition pureClient "docs" [idCondEx]).2
      (mkCollection pureQueryResult pureGetResult) (by rfl) (by rfl)
      (Or.inr (by rfl))

/-- Counterexample to claim C7 as stated: a backend failure raised inside
select is NOT converted into a structured error result — the raw exception
propagates past the public surface (select has no try block). -/
theorem select_propagates_backend_error :
    select boomClient "docs" none none none none =
      (.error (.exception "boom"),
       [.getCollection "docs",
        .getCall "docs" ⟨none, none, none, none⟩]) := by rfl

/-- A client whose get-collection backend call raises. -/
def gcBoomClient : Client :=
  { pureClient with get_collection := fun _ => .error (.exception "boom") }

/-- A client whose set-schema backend call raises. -/
def ssBoomClient : Client :=
  { pureClient with table_set_schema := fun _ _ => .error (.exception "boom") }

/-- A client whose table-delete backend call raises. -/
def tdBoomClient : Client :=
  { pureClient with table_delete := fun _ => .error (.exception "boom") }

/-- A client whose get-columns backend call raises. -/
def gcolBoomClient : Client :=
  { pureClient with table_get_columns := fun _ => .error (.exception "boom") }

/-- A client whose branch-details backend call raises. -/
def gtBoomClient : Client :=
  { pureClient with branch_get_details := .error (.exception "boom") }

/-- A client whose bulk put-and-flush backend call raises. -/
def bulkBoomClient : Client :=
  { pureClient with bulk_put_flush := fun _ _ => .error (.exception "boom") }

/-- A client whose insert-with-id backend call raises. -/
def iwiBoomClient : Client :=
  { pureClient with insert_with_id := fun _ _ _ _ _ => .error (.exception "boom") }

/-- A client whose plain record-insert backend call raises. -/
def riBoomClient : Client :=
  { pureClient with record_insert := fun _ _ _ => .error (.exception "boom") }

/-- A collection whose delete call raises (query and get succeed). -/
def delBoomCollection : Collection :=
  { mkCollection pureQueryResult pureGetResult with
    del := fun _ => .error (.exception "boom") }

/-- A client whose collection-delete backend call raises (the collection is
obtained successfully). -/
def delBoomClient : Client :=
  { pureClient with get_collection := fun _ => .ok delBoomCollection }

/-- Claim C7 as amended: backend failures inside the try-wrapped code —
create_table (either call), drop_table, get_columns, get_tables, and each
of the three insert dispatch paths (lines 159 to 208, themselves unreachable
through the public insert, see C2) — are caught and converted into returned
error results embedding the backend message; select and delete have no try
block and propagate backend-originating exceptions raw past the public
surface, at every backend call they make (collection lookup, similarity
query, plain retrieval, backend delete); the usage error for an
empty-condition delete is raised directly. -/
theorem error_propagation_amended (client : Client) (t : String)
    (dim : PyVal) (e : PyErr) :
    (client.table_create t = .error e →
      (create_table client dim t).1 = .err (createErrMsg t e.msg)) ∧
    (client.table_create t = .ok () →
      client.table_set_schema t (schema_columns dim) = .error e →
      (create_table client dim t).1 = .err (createErrMsg t e.msg)) ∧
    (client.table_delete t = .error e →
      (drop_table client t).1 = .err (dropErrMsg t e.msg)) ∧
    (client.table_get_columns t = .error e →
      (get_columns client t).1 = .err e.msg) ∧
    (client.branch_get_details = .error e →
      (get_tables client).1 = .err (getTablesErrMsg e.msg)) ∧
    (∀ data, data.length > 1 → client.bulk_put_flush t data = .error e →
      (insert_dispatch client t data none).1 =
        .ok (.err (insertErrMsg t e.msg))) ∧
    (∀ row cs, rowHas row TableField.ID = true →
      cs.contains TableField.ID = true →
      client.insert_with_id t ((rowLookup row TableField.ID).getD PyVal.vnone)
        (rowDel row TableField.ID) true (some cs) = .error e →
      (insert_dispatch client t [row] (some cs)).1 =
        .ok (.err (insertErrMsg t e.msg))) ∧
    (∀ row, rowHas row TableField.ID = false →
      client.record_insert t row none = .error e →
      (insert_dispatch client t [row] none).1 =
        .ok (.err (insertErrMsg t e.msg))) ∧
    (∀ cols conds off lim, client.get_collection t = .error e →
      select client t cols conds off lim = (.error e, [.getCollection t])) ∧
    (∀ coll cols conds off lim vf, client.get_collection t = .ok coll →
      first_vector_condition conds = some vf →
      coll.query
        { filters := translate_metadata_condition conds,
          query_embeddings := some vf.value,
          fields := includeFields, n_results := lim } = .error e →
      select client t cols conds off lim =
        (.error e,
         [.getCollection t,
          .queryCall t
            { filters := translate_metadata_condition conds,
              query_embeddings := some vf.value,
              fields := includeFields, n_results := lim }])) ∧
    (∀ coll cols conds off lim, client.get_collection t = .ok coll →
      first_vector_condition conds = none →
      coll.get
        { ids := select_id_filters conds,
          filters := translate_metadata_condition conds,
          limit := lim, offset := off } = .error e →
      select client t cols conds off lim =
        (.error e,
         [.getCollection t,
          .getCall t
            { ids := select_id_filters conds,
              filters := translate_metadata_condition conds,
              limit := lim, offset := off }])) ∧
    (∀ cs, ((translate_metadata_condition (some cs)).isNone &&
        (delete_id_filters cs).isNone) = false →
      client.get_collection t = .error e →
      delete client t (some cs) = (.error e, [.getCollection t])) ∧
    (∀ cs coll, ((translate_metadata_condition (some cs)).isNone &&
        (delete_id_filters cs).isNone) = false →
      client.get_collection t = .ok coll →
      coll.del ⟨delete_id_filters cs, translate_metadata_condition (some cs)⟩ =
        .error e →
      delete client t (some cs) =
        (.error e,
         [.getCollection t,
          .collDelete t
            ⟨delete_id_filters cs, translate_metadata_condition (some cs)⟩])) ∧
    (delete client t (some []) = (.error (.exception deleteUsageMsg), [])) := by
  refine ⟨?_, ?_, ?_, ?_, ?_, ?_, ?_, ?_, ?_, ?_, ?_, ?_, ?_, ?_⟩
  · intro htc
    unfold create_table
    rw [htc]
  · intro htc hss
    simp [create_table, htc, hss]
  · intro htd
    unfold drop_table
    rw [htd]
  · intro hgcol
    unfold get_columns
    rw [hgcol]
  · intro hbd
    unfold get_tables
    rw [hbd]
  · intro data hlen hbulk
    simp [insert_dispatch, hlen, hbulk]
  · intro row cs hid hcs hiwi
    have hmem : TableField.ID ∈ cs := by
      simpa using hcs
    simp [insert_dispatch, hid, hcs, hmem, hiwi]
  · intro row hnoid hri
    simp [insert_dispatch, insert_plain, hnoid, hri]
  · intro cols conds off lim hgc
    unfold select
    rw [hgc]
  · intro coll cols conds off lim vf hgc hv hq
    have hsc : select_core coll t cols conds off lim =
        (.error e,
         [.queryCall t
            { filters := translate_metadata_condition conds,
              query_embeddings := some vf.value,
              fields := includeFields, n_results := lim }]) := by
      simp [select_core, hv, hq]
    unfold select
    rw [hgc]
    simp [hsc]
  · intro coll cols conds off lim hgc hv hg
    have hsc : select_core coll t cols conds off lim =
        (.error e,
         [.getCall t
            { ids := select_id_filters conds,
              filters := translate_metadata_condition conds,
              limit := lim, offset := off }]) := by
      simp [select_core, hv, hg]
    unfold select
    rw [hgc]
    simp [hsc]
  · intro cs hfil hgc
    simp [delete, hfil, hgc]
  · intro cs coll hfil hgc hdel
    simp [delete, hfil, hgc, hdel]
  · unfold delete
    simp [delete_id_filters, orNone, translate_metadata_condition]

/-- Witness for the amended C7: every conjunct exercised at a concrete
failing backend. -/
theorem error_propagation_amended_witness :
    (create_table tcBoomClient (PyVal.vint 8) "docs").1 =
      .err (createErrMsg "docs" "boom") ∧
    (create_table ssBoomClient (PyVal.vint 8) "docs").1 =
      .err (createErrMsg "docs" "boom") ∧
    (drop_table tdBoomClient "docs").1 = .err (dropErrMsg "docs" "boom") ∧
    (get_columns gcolBoomClient "docs").1 = .err "boom" ∧
    (get_tables gtBoomClient).1 = .err (getTablesErrMsg "boom") ∧
    (insert_dispatch bulkBoomClient "docs" [[], []] none).1 =
      .ok (.err (insertErrMsg "docs" "boom")) ∧
    (insert_dispatch iwiBoomClient "docs"
      [[(TableField.ID, PyVal.vstr "x")]] (some ["id"])).1 =
      .ok (.err (insertErrMsg "docs" "boom")) ∧
    (insert_dispatch riBoomClient "docs"
      [[(TableField.CONTENT, PyVal.vstr "a")]] none).1 =
      .ok (.err (insertErrMsg "docs" "boom")) ∧
    select gcBoomClient "docs" none none none none =
      (.error (.exception "boom"), [.getCollection "docs"]) ∧
    select boomClient "docs" none (some [vecCondEx]) none none =
      (.error (.exception "boom"),
       [.getCollection "docs",
        .queryCall "docs"
          { filters := none, query_embeddings := some (PyVal.vobj 9),
            fields := includeFields, n_results := none }]) ∧
    select boomClient "docs" none none none none =
      (.error (.exception "boom"),
       [.getCollection "docs", .getCall "docs" ⟨none, none, none, none⟩]) ∧
    delete gcBoomClient "docs" (some [idCondEx]) =
      (.error (.exception "boom"), [.getCollection "docs"]) ∧
    delete delBoomClient "docs" (some [idCondEx]) =
      (.error (.exception "boom"),
       [.getCollection "docs",
        .collDelete "docs" ⟨some [PyVal.vstr "x"], none⟩]) ∧
    delete pureClient "docs" (some []) =
      (.error (.exception deleteUsageMsg), []) := by
  refine ⟨?_, ?_, ?_, ?_, ?_, ?_, ?_, ?_, ?_, ?_, ?_, ?_, ?_, ?_⟩
  · exact (error_propagation_amended tcBoomClient "docs" (PyVal.vint 8)
      (.exception "boom")).1 (by rfl)
  · exact (error_propagation_amended ssBoomClient "docs" (PyVal.vint 8)
      (.exception "boom")).2.1 (by rfl) (by rfl)
  · exact (error_propagation_amended tdBoomClient "docs" (PyVal.vint 8)
      (.exception "boom")).2.2.1 (by rfl)
  · exact (error_propagation_amended gcolBoomClient "docs" (PyVal.vint 8)
      (.exception "boom")).2.2.2.1 (by rfl)
  · exact (error_propagation_amended gtBoomClient "docs" (PyVal.vint 8)
      (.exception "boom")).2.2.2.2.1 (by rfl)
  · exact (error_propagation_amended bulkBoomClient "docs" (PyVal.vint 8)
      (.exception "boom")).2.2.2.2.2.1 [[], []] (by decide) (by rfl)
  · exact (error_propagation_amended iwiBoomClient "docs" (PyVal.vint 8)
      (.exception "boom")).2.2.2.2.2.2.1
      [(TableField.ID, PyVal.vstr "x")] ["id"] (by rfl) (by rfl) (by rfl)
  · exact (error_propagation_amended riBoomClient "docs" (PyVal.vint 8)
      (.exception "boom")).2.2.2.2.2.2.2.1
      [(TableField.CONTENT, PyVal.vstr "a")] (by rfl) (by rfl)
  · exact (error_propagation_amended gcBoomClient "docs" (PyVal.vint 8)
      (.exception "boom")).2.2.2.2.2.2.2.2.1 none none none none (by rfl)
  · exact (error_propagation_amended boomClient "docs" (PyVal.vint 8)
      (.exception "boom")).2.2.2.2.2.2.2.2.2.1 boomCollection none
      (some [vecCondEx]) none none vecCondEx (by rfl) (by rfl) (by rfl)
  · exact (error_propagation_amended boomClient "docs" (PyVal.vint 8)
      (.exception "boom")).2.2.2.2.2.2.2.2.2.2.1 boomCollection none
      none none none (by rfl) (by rfl) (by rfl)
  · exact (error_propagation_amended gcBoomClient "docs" (PyVal.vint 8)
      (.exception "boom")).2.2.2.2.2.2.2.2.2.2.2.1 [idCondEx] (by rfl) (by rfl)
  · exact (error_propagation_amended delBoomClient "docs" (PyVal.vint 8)
      (.exception "boom")).2.2.2.2.2.2.2.2.2.2.2.2.1 [idCondEx]
      delBoomCollection (by rfl) (by rfl) (by rfl)
  · exact (error_propagation_amended pureClient "docs" (PyVal.vint 8)
      (.exception "boom")).2.2.2.2.2.2.2.2.2.2.2.2.2



/-- Claim C2 (code bug): an insert with zero rows does not return immediate
success — line 157 reads the columns attribute of a Python list, so every
insert call (the empty batch included) raises AttributeError before the
path dispatch, with no backend call. -/
theorem insert_zero_rows_raises :
    insert pureClient "docs" ⟨[]⟩ none =
      (.error (.attributeError "list object has no attribute columns"), []) ∧
    insert pureClient "docs" ⟨[]⟩ none ≠ (.ok .okR, []) := by
  have h1 : insert pureClient "docs" ⟨[]⟩ none =
      (.error (.attributeError "list object has no attribute columns"), []) := rfl
  refine ⟨h1, ?_⟩
  rw [h1]
  simp

/-- Claim C3 (code bug): a singleton insert whose row carries a serialized
metadata field raises AttributeError at line 157 before the metadata value
is ever deserialized and before anything is transmitted (empty backend
trace). -/
theorem insert_metadata_never_deserialized :
    insert pureClient "docs"
      ⟨[[(TableField.CONTENT, PyVal.vstr "a"),
         (TableField.METADATA, PyVal.vstr "serialized-json")]]⟩ none =
      (.error (.attributeError "list object has no attribute columns"), []) := by
  rfl

/-- Claim C6 (code bug): the singleton insert that should take the
insert-with-explicit-id path instead raises AttributeError at line 157 and
issues no backend call; the dispatch code of lines 173 to 192, had it been
reached, would have issued the backend insert in create-only mode. -/
theorem insert_with_id_path_unreachable :
    insert pureClient "docs"
      ⟨[[(TableField.ID, PyVal.vstr "x"), (TableField.CONTENT, PyVal.vstr "a")]]⟩
      (some ["id", "content"]) =
      (.error (.attributeError "list object has no attribute columns"), []) ∧
    insert_dispatch pureClient "docs"
      [[(TableField.ID, PyVal.vstr "x"), (TableField.CONTENT, PyVal.vstr "a")]]
      (some ["id", "content"]) =
      (.ok .okR,
       [.insertWithId "docs" (PyVal.vstr "x")
          [(TableField.CONTENT, PyVal.vstr "a")] true (some ["id", "content"])]) := by
  exact ⟨by rfl, by rfl⟩

/-- Claim C8 (code bug): with a configuration that sets the embedding
dimension to 16, create_table nevertheless sends a schema whose vector
dimension is the db_url string — line 36 fetches the db_url key instead of
the dimension key, contradicting the dimension connection argument declared
at lines 337 to 341 of the same file. -/
theorem create_table_dimension_is_db_url :
    init_create_table_dimension
        ⟨some (PyVal.vstr "https-example-url"), some (PyVal.vstr "key"),
         some (PyVal.vint 16)⟩ = PyVal.vstr "https-example-url" ∧
    init_create_table_dimension
        ⟨some (PyVal.vstr "https-example-url"), some (PyVal.vstr "key"),
         some (PyVal.vint 16)⟩ ≠ PyVal.vint 16 ∧
    create_table pureClient
        (init_create_table_dimension
          ⟨some (PyVal.vstr "https-example-url"), some (PyVal.vstr "key"),
           some (PyVal.vint 16)⟩) "docs" =
      (.okR,
       [.tableCreate "docs",
        .setSchema "docs" (schema_columns (PyVal.vstr "https-example-url"))]) := by
  exact ⟨by rfl, by decide, by rfl⟩

end Xata
